import Mathlib

/-!
Shallow embedding of `scRNAseq_collector.py`, a small Flask service that
searches NCBI GDS, fetches per-study XML details, extracts an embedded
FTP URL from each detail blob and downloads the listed files.

Pure string manipulation is translated to Lean functions over `String` /
`List Char`; the request handler `fetch_rnaseq_data` is translated to a
function from the request body and an environment (the responses of the
outside world: NCBI, the filesystem, the interactive operator, the FTP
server) to the HTTP response together with the ordered trace of outward
effects the handler performs.
-/

namespace ScRNAseq

/-- The character class kept by the sanitizer's regex `[^a-zA-Z0-9_ ]`
(every character outside it is removed): ASCII letters, digits,
underscore and space. -/
def isAllowedChar (c : Char) : Bool :=
  ('a' ≤ c && c ≤ 'z') || ('A' ≤ c && c ≤ 'Z') || ('0' ≤ c && c ≤ '9')
    || c = '_' || c = ' '

/-- `sanitize_input` (line 31-32): `re.sub(r'[^a-zA-Z0-9_ ]', '', user_input)`,
i.e. delete every character not in the whitelist, keeping the rest in order. -/
def sanitize_input (s : String) : String :=
  String.mk (s.data.filter isAllowedChar)

/-- Fixed NCBI search endpoint (line 27). -/
def NCBI_BASE_URL : String := "https://eutils.ncbi.nlm.nih.gov/entrez/eutils/esearch.fcgi"

/-- Fixed NCBI detail endpoint (line 28). -/
def NCBI_FETCH_URL : String := "https://eutils.ncbi.nlm.nih.gov/entrez/eutils/efetch.fcgi"

/-- Host the handler always connects to for FTP (line 106). -/
def ftpHost : String := "ftp.ncbi.nlm.nih.gov"

/-- Literal removed from the FTP URL before `cwd` (line 108). -/
def ncbiHostLit : String := "ftp://ftp.ncbi.nlm.nih.gov/"

/-- The request body of a POST to `/fetch_rnaseq_data`, as seen through
`request.get_json()` followed by `data.get(...)` (lines 39-42).  A missing
body, a non-JSON body, or a JSON value that is not an object all make the
handler raise (Flask raises from `get_json`, or `.get` is absent on the
value), landing in the generic `except Exception` branch. -/
inductive ReqBody
  | noBody
  | nonJson
  | jsonNonObject
  | jsonObject (organism tissue data_type : Option String)

/-- Outcome of the search call (lines 57-62): `fail` covers a transport
failure or a non-2xx status (`raise_for_status`); `ok` carries
`esearchresult.idlist`. -/
inductive SearchOutcome
  | fail
  | ok (idList : List String)
  deriving DecidableEq, Repr

/-- Outcome of one FTP session for one record (lines 106-120): `fail`
covers any `ftplib` error; `ok` carries the file names listed by `nlst`. -/
inductive FtpOutcome
  | fail
  | ok (files : List String)
  deriving DecidableEq, Repr

/-- The outside world as the handler observes it: the `NCBI_API_KEY`
configuration value, the search response, the per-identifier detail
responses (`none` = request failure), whether the base directory exists,
the operator's answer to the interactive prompt, and the FTP outcome per
record ordinal. -/
structure Env where
  apiKey : String
  search : SearchOutcome
  fetchDetail : String → Option String
  baseDirExists : Bool
  userInput : String
  ftp : Nat → FtpOutcome

/-- One outward effect performed by the handler, in program order:
HTTP requests to NCBI, the interactive prompt, filesystem mutations and
FTP operations. -/
inductive Effect
  | searchRequest (term : String) (apiKey : String)
  | detailRequest (id : String) (apiKey : String)
  | prompt
  | rmtree (dir : String)
  | makedirs (dir : String)
  | ftpConnect (host : String)
  | ftpCwd (dir : String)
  | ftpNlst
  | retrbinary (localPath : String) (file : String)
  | ftpQuit
  deriving DecidableEq, Repr

/-- An HTTP response: status code plus the single JSON key/value the
handler emits via `jsonify`. -/
structure Resp where
  status : Nat
  key : String
  body : String
  deriving DecidableEq, Repr

def resp400 : Resp := ⟨400, "error", "Organism field is required."⟩

def resp404 : Resp := ⟨404, "message", "No data found for the specified query."⟩

def respCancel : Resp := ⟨200, "message", "Operación cancelada por el usuario."⟩

def respSuccess : Resp := ⟨200, "message", "All data fetched and saved successfully."⟩

def respNCBIFail : Resp := ⟨500, "error", "Failed to fetch data from NCBI."⟩

def respFTPFail : Resp := ⟨500, "error", "Failed to connect to FTP server."⟩

def respUnexpected : Resp := ⟨500, "error", "An unexpected error occurred."⟩

/-- Python `os.path.join` for the two-argument uses in the handler
(lines 91, 111, 115): an absolute second component replaces the first,
otherwise they are joined with a single separator. -/
def path_join (a b : String) : String :=
  if b.startsWith "/" then b
  else if a.endsWith "/" then a ++ b
  else a ++ "/" ++ b

/-- Hard-coded download root (line 80):
`base_dir = '/home/caheri_salas/db_scRNAseq'`. -/
def base_dir : String := "/home/caheri_salas/db_scRNAseq"

/-- Parent used for a redirect folder (line 91). -/
def homeDir : String := "/home/caheri_salas"

/-- Python `str.lower()` as used on the operator's one-word answer
(lines 85, 88): character-wise lowercasing (ASCII case folding via
`Char.toLower`). -/
def pyLower (s : String) : String :=
  String.mk (s.data.map Char.toLower)

/-- Result of the directory-resolution block. -/
inductive DirResult
  | proceed (dir : String)
  | cancelled
  deriving DecidableEq, Repr

/-- Lines 83-95: if the base directory exists, prompt; answer `s` (case
folded) deletes and recreates it, `n` cancels, anything else becomes a
sibling folder name under `/home/caheri_salas` created with
`exist_ok=True`; if it does not exist it is created. -/
def resolveDir (env : Env) : List Effect × DirResult :=
  if env.baseDirExists then
    let ui := pyLower env.userInput
    if ui = "s" then
      ([.prompt, .rmtree base_dir, .makedirs base_dir], .proceed base_dir)
    else if ui = "n" then
      ([.prompt], .cancelled)
    else
      let nd := path_join homeDir env.userInput
      ([.prompt, .makedirs nd], .proceed nd)
  else
    ([.makedirs base_dir], .proceed base_dir)

/-- Lines 67-77: one detail request per identifier, in order; the body
texts accumulate; the first failure (`raise_for_status`) aborts the loop
with the exception (`none`), after that request was already issued. -/
def fetchDetailsLoop (env : Env) : List String → List Effect × Option (List String)
  | [] => ([], some [])
  | sid :: rest =>
    match env.fetchDetail sid with
    | none => ([.detailRequest sid env.apiKey], none)
    | some text =>
      let (effs, r) := fetchDetailsLoop env rest
      (.detailRequest sid env.apiKey :: effs, r.map (text :: ·))

/-- Characters matched by `[^"]+` starting here: the maximal run of
non-quote characters. -/
def takeNonQuote : List Char → List Char
  | [] => []
  | c :: cs => if c = '"' then [] else c :: takeNonQuote cs

/-- The scheme literal of the pattern `ftp://[^"]+` (line 100). -/
def ftpScheme : List Char := "ftp://".data

/-- Line 100: `re.search(r'ftp://[^"]+', study)` — the leftmost position
where the literal `ftp://` is followed by at least one non-quote
character yields the match `ftp://` plus the maximal non-quote run;
otherwise there is no match. -/
def findFtpUrl : List Char → Option String
  | [] => none
  | c :: cs =>
    if ftpScheme.isPrefixOf (c :: cs) then
      let run := takeNonQuote ((c :: cs).drop ftpScheme.length)
      if run.isEmpty then findFtpUrl cs
      else some (String.mk (ftpScheme ++ run))
    else findFtpUrl cs

/-- Helper for Python `str.replace(pat, '')`: scans left to right; the
`Nat` counts characters of a just-matched occurrence still to drop. -/
def removeAllAux (pat : List Char) : Nat → List Char → List Char
  | _, [] => []
  | k + 1, _ :: cs => removeAllAux pat k cs
  | 0, c :: cs =>
    if pat.isPrefixOf (c :: cs) then removeAllAux pat (pat.length - 1) cs
    else c :: removeAllAux pat 0 cs

/-- Python `str.replace(pat, '')`: remove every (leftmost-first,
non-overlapping) occurrence of `pat`. -/
def removeAll (pat l : List Char) : List Char :=
  removeAllAux pat 0 l

/-- Line 108: `ftp_url.replace("ftp://ftp.ncbi.nlm.nih.gov/", "")`, the
string passed to `ftp.cwd`. -/
def cwdTarget (url : String) : String :=
  String.mk (removeAll ncbiHostLit.data url.data)

/-- Lines 98-121: for each detail blob (1-based ordinal `idx`), extract
the first FTP URL; if none, skip the record entirely; otherwise connect
to the fixed NCBI host, `cwd` to the replace-stripped URL, list files,
create `study_<idx>`, download every listed file, quit.  Any `ftplib`
failure aborts the remaining records (`false` = the `except ftplib`
branch fires). -/
def downloadLoop (env : Env) (baseDir : String) : Nat → List String → List Effect × Bool
  | _, [] => ([], true)
  | idx, study :: rest =>
    match findFtpUrl study.data with
    | none => downloadLoop env baseDir (idx + 1) rest
    | some url =>
      match env.ftp idx with
      | .fail => ([.ftpConnect ftpHost], false)
      | .ok files =>
        let studyDir := path_join baseDir ("study_" ++ toString idx)
        let (effs, ok) := downloadLoop env baseDir (idx + 1) rest
        (.ftpConnect ftpHost :: .ftpCwd (cwdTarget url) :: .ftpNlst ::
            .makedirs studyDir ::
            ((files.map fun f => Effect.retrbinary (path_join studyDir f) f)
              ++ [.ftpQuit] ++ effs),
          ok)

/-- The handler `fetch_rnaseq_data` (lines 36-132), as a function from
the request body and the environment to the HTTP response and the
ordered effect trace.  The three `except` branches (lines 124-132) map a
search/detail failure to `respNCBIFail`, an FTP failure to
`respFTPFail`, and any other raise — including a body that
`request.get_json()` rejects or a JSON value without `.get` — to
`respUnexpected`. -/
def fetch_rnaseq_data (req : ReqBody) (env : Env) : Resp × List Effect :=
  match req with
  | .noBody => (respUnexpected, [])
  | .nonJson => (respUnexpected, [])
  | .jsonNonObject => (respUnexpected, [])
  | .jsonObject org tis dt =>
    let organism := sanitize_input (org.getD "")
    let tissue := sanitize_input (tis.getD "hippocampus")
    let data_type := sanitize_input (dt.getD "rna-seq")
    if organism = "" then (resp400, [])
    else
      let query := organism ++ " " ++ tissue ++ " " ++ data_type
      match env.search with
      | .fail => (respNCBIFail, [.searchRequest query env.apiKey])
      | .ok idList =>
        if idList.isEmpty then (resp404, [.searchRequest query env.apiKey])
        else
          match fetchDetailsLoop env idList with
          | (fe, none) => (respNCBIFail, .searchRequest query env.apiKey :: fe)
          | (fe, some details) =>
            match resolveDir env with
            | (de, .cancelled) =>
              (respCancel, .searchRequest query env.apiKey :: fe ++ de)
            | (de, .proceed bdir) =>
              let (dle, ok) := downloadLoop env bdir 1 details
              if ok then
                (respSuccess, .searchRequest query env.apiKey :: fe ++ de ++ dle)
              else
                (respFTPFail, .searchRequest query env.apiKey :: fe ++ de ++ dle)

/-- Effects that mutate the filesystem (delete or create a directory,
write a downloaded file). -/
def mutatesFs : Effect → Bool
  | .rmtree _ => true
  | .makedirs _ => true
  | .retrbinary _ _ => true
  | _ => false

/-- Effects belonging to an FTP session (any download activity). -/
def isFtpOp : Effect → Bool
  | .ftpConnect _ => true
  | .ftpCwd _ => true
  | .ftpNlst => true
  | .retrbinary _ _ => true
  | .ftpQuit => true
  | _ => false

/-- The identifiers of the detail requests in a trace, in order. -/
def detailIds (effs : List Effect) : List String :=
  effs.filterMap fun e =>
    match e with
    | .detailRequest sid _ => some sid
    | _ => none

/-- Whether `pat` occurs as a contiguous sublist. -/
def occursIn (pat : List Char) : List Char → Bool
  | [] => pat.isEmpty
  | c :: cs => pat.isPrefixOf (c :: cs) || occursIn pat cs

/-- A small concrete environment used to instantiate theorems with
hypotheses. -/
def envW : Env :=
  ⟨"KEY", .ok [], fun _ => some "", false, "", fun _ => .ok []⟩

/-- Concrete environment whose second detail fetch fails. -/
def env4 : Env :=
  ⟨"KEY", .ok ["a", "b", "c"],
    fun sid => if sid = "b" then none else some "t", false, "", fun _ => .ok []⟩

/-- Concrete environment where the base directory exists and the
operator answers `N`. -/
def env6 : Env :=
  ⟨"KEY", .ok ["x"], fun _ => some "d", true, "N", fun _ => .ok []⟩

/-- Concrete environment for the mouse scenario: the search returns the
two identifiers and both detail fetches succeed. -/
def env7 : Env :=
  ⟨"KEY", .ok ["100001", "100002"], fun _ => some "detail", false, "",
    fun _ => .ok []⟩

/-- Two concrete environments with different configuration (the API key
is the program's only configuration value) used for C8. -/
def envC1 : Env :=
  ⟨"KEY1", .ok [], fun _ => some "", false, "", fun _ => .ok []⟩

/-- Second configuration for C8, differing in every environment field. -/
def envC2 : Env :=
  ⟨"KEY2", .fail, fun _ => none, false, "op", fun _ => .fail⟩

/-- Modelled from the spec's words, for comparison with `cwdTarget`
(C9): the transfer URL with its `ftp://<host>/` part stripped, whatever
host appears — drop the scheme literal, then everything through the
first slash. -/
def hostStripped (url : String) : String :=
  if ftpScheme.isPrefixOf url.data then
    String.mk (((url.data.drop ftpScheme.length).dropWhile (· ≠ '/')).drop 1)
  else url

theorem sanitize_data (s : String) :
    (sanitize_input s).data = s.data.filter isAllowedChar := rfl

theorem sanitize_allowed (s : String) :
    ∀ c ∈ (sanitize_input s).data, isAllowedChar c = true := by
  intro c hc
  rw [sanitize_data] at hc
  exact (List.mem_filter.mp hc).2

theorem sanitize_idem (s : String) :
    sanitize_input (sanitize_input s) = sanitize_input s := by
  show String.mk (List.filter isAllowedChar (List.filter isAllowedChar s.data))
    = String.mk (List.filter isAllowedChar s.data)
  rw [List.filter_filter]
  simp

theorem fetchDetailsLoop_ok (env : Env) (ids : List String)
    (h : ∀ sid ∈ ids, (env.fetchDetail sid).isSome = true) :
    ∃ ds, fetchDetailsLoop env ids =
      (ids.map fun sid => Effect.detailRequest sid env.apiKey, some ds) := by
  induction ids with
  | nil => exact ⟨[], rfl⟩
  | cons sid rest ih =>
    obtain ⟨t, ht⟩ := Option.isSome_iff_exists.mp (h sid (List.mem_cons_self sid rest))
    obtain ⟨ds, hds⟩ := ih fun x hx => h x (List.mem_cons_of_mem sid hx)
    refine ⟨t :: ds, ?_⟩
    simp [fetchDetailsLoop, ht, hds]

theorem fetchDetailsLoop_fail (env : Env) (pre post : List String) (bad : String)
    (hpre : ∀ sid ∈ pre, (env.fetchDetail sid).isSome = true)
    (hbad : env.fetchDetail bad = none) :
    fetchDetailsLoop env (pre ++ bad :: post) =
      ((pre.map fun sid => Effect.detailRequest sid env.apiKey)
        ++ [Effect.detailRequest bad env.apiKey], none) := by
  induction pre with
  | nil => simp [fetchDetailsLoop, hbad]
  | cons sid rest ih =>
    obtain ⟨t, ht⟩ := Option.isSome_iff_exists.mp (hpre sid (List.mem_cons_self sid rest))
    have := ih fun x hx => hpre x (List.mem_cons_of_mem sid hx)
    simp [fetchDetailsLoop, ht, this]

theorem detailIds_append (a b : List Effect) :
    detailIds (a ++ b) = detailIds a ++ detailIds b := by
  simp [detailIds, List.filterMap_append]

theorem detailIds_resolveDir (env : Env) :
    detailIds (resolveDir env).1 = [] := by
  unfold resolveDir
  by_cases h : env.baseDirExists
  · simp only [h, if_true]
    by_cases hs : pyLower env.userInput = "s"
    · simp [hs, detailIds]
    · by_cases hn : pyLower env.userInput = "n"
      · simp [hs, hn, detailIds]
      · simp [hs, hn, detailIds]
  · simp [h, detailIds]

theorem detailIds_downloadLoop (env : Env) (baseDir : String) :
    ∀ (idx : Nat) (details : List String),
      detailIds (downloadLoop env baseDir idx details).1 = [] := by
  intro idx details
  induction details generalizing idx with
  | nil => simp [downloadLoop, detailIds]
  | cons study rest ih =>
    unfold downloadLoop
    cases hurl : findFtpUrl study.data with
    | none => exact ih (idx + 1)
    | some url =>
      cases hftp : env.ftp idx with
      | fail => simp [detailIds]
      | ok files =>
        rcases hdl : downloadLoop env baseDir (idx + 1) rest with ⟨effs, ok⟩
        have heffs : detailIds effs = [] := by
          have := ih (idx + 1); rw [hdl] at this; exact this
        simp only [detailIds, List.filterMap_cons, List.filterMap_append,
          List.filterMap_map] at heffs ⊢
        simp [heffs, List.filterMap_eq_nil_iff]

theorem removeAllAux_skip (pat : List Char) :
    ∀ xs l : List Char, removeAllAux pat xs.length (xs ++ l) = removeAllAux pat 0 l := by
  intro xs
  induction xs with
  | nil => intro l; rfl
  | cons x xt ih => intro l; exact ih l

theorem removeAll_of_not_occursIn (pat : List Char) :
    ∀ l : List Char, occursIn pat l = false → removeAll pat l = l := by
  unfold removeAll
  intro l
  induction l with
  | nil => intro _; rfl
  | cons c cs ih =>
    intro h
    simp only [occursIn, Bool.or_eq_false_iff] at h
    rw [removeAllAux, if_neg (by simp [h.1])]
    rw [ih h.2]

theorem removeAll_append_self (pat l : List Char) (hne : pat ≠ []) :
    removeAll pat (pat ++ l) = removeAll pat l := by
  cases pat with
  | nil => exact absurd rfl hne
  | cons c ptail =>
    have hp : (c :: ptail).isPrefixOf (c :: (ptail ++ l)) = true := by
      rw [List.isPrefixOf_iff_prefix]
      exact List.prefix_append (c :: ptail) l
    unfold removeAll
    rw [List.cons_append, removeAllAux, if_pos hp]
    have hlen : (c :: ptail).length - 1 = ptail.length := by simp
    rw [hlen]
    exact removeAllAux_skip (c :: ptail) ptail l

/-- C1: `sanitize_input` returns exactly the characters of its input
that are ASCII letters, digits, underscore or space, in their original
order (it is the whitelist filter); hence every output character lies in
`[A-Za-z0-9_ ]`, and sanitizing twice equals sanitizing once. -/
theorem C1_sanitize_whitelist_filter_idem (s : String) :
    (sanitize_input s).data = s.data.filter isAllowedChar
    ∧ (∀ c ∈ (sanitize_input s).data, isAllowedChar c = true)
    ∧ sanitize_input (sanitize_input s) = sanitize_input s :=
  ⟨sanitize_data s, sanitize_allowed s, sanitize_idem s⟩

/-- C2: a request body whose `organism` field is absent (`data.get`
then yields `""`) or sanitizes to the empty string receives the 400
validation response with an empty effect trace: no outbound HTTP or FTP
call is made before returning. -/
theorem C2_missing_organism_400_no_calls (org tis dt : Option String) (env : Env)
    (h : sanitize_input (org.getD "") = "") :
    fetch_rnaseq_data (.jsonObject org tis dt) env = (resp400, []) := by
  simp [fetch_rnaseq_data, h]

theorem C2_witness :
    sanitize_input ((some "!!!").getD "") = ""
    ∧ fetch_rnaseq_data (.jsonObject (some "!!!") none none) envW = (resp400, []) :=
  ⟨by decide, C2_missing_organism_400_no_calls (some "!!!") none none envW (by decide)⟩

/-- C3: when the search call succeeds with an empty identifier list, the
handler answers with the 404 no-data response and the trace holds the
search request alone: no detail fetch and no download happened. -/
theorem C3_empty_idlist_404_no_fetches (org tis dt : Option String) (env : Env)
    (hor : sanitize_input (org.getD "") ≠ "")
    (hs : env.search = .ok []) :
    fetch_rnaseq_data (.jsonObject org tis dt) env =
      (resp404,
        [Effect.searchRequest (sanitize_input (org.getD "") ++ " "
          ++ sanitize_input (tis.getD "hippocampus") ++ " "
          ++ sanitize_input (dt.getD "rna-seq")) env.apiKey]) := by
  simp [fetch_rnaseq_data, hor, hs]

theorem C3_witness :
    sanitize_input ((some "mouse").getD "") ≠ ""
    ∧ envW.search = .ok []
    ∧ fetch_rnaseq_data (.jsonObject (some "mouse") none none) envW =
      (resp404, [Effect.searchRequest "mouse hippocampus rnaseq" "KEY"]) := by
  refine ⟨by decide, rfl, ?_⟩
  exact (C3_empty_idlist_404_no_fetches (some "mouse") none none envW
    (by decide) rfl).trans (by decide)

/-- C5: a record whose detail blob has no `ftp://` match is skipped
silently: processing it equals processing the remaining records with the
ordinal advanced, so in isolation the record contributes no effect and
raises no FTP error. -/
theorem C5_no_ftp_match_skipped (env : Env) (baseDir : String) (idx : Nat)
    (study : String) (rest : List String)
    (h : findFtpUrl study.data = none) :
    downloadLoop env baseDir idx (study :: rest) = downloadLoop env baseDir (idx + 1) rest
    ∧ downloadLoop env baseDir idx [study] = ([], true) := by
  constructor
  · rw [downloadLoop, h]
  · rw [downloadLoop, h]; rw [downloadLoop]

theorem C5_witness :
    findFtpUrl ("no transfer location here" : String).data = none
    ∧ downloadLoop envW base_dir 1 ["no transfer location here", "x \"ftp://f/u\" y"] =
      downloadLoop envW base_dir 2 ["x \"ftp://f/u\" y"]
    ∧ downloadLoop envW base_dir 1 ["no transfer location here"] = ([], true) :=
  ⟨by decide,
    (C5_no_ftp_match_skipped envW base_dir 1 "no transfer location here"
      ["x \"ftp://f/u\" y"] (by decide)).1,
    (C5_no_ftp_match_skipped envW base_dir 1 "no transfer location here"
      ["x \"ftp://f/u\" y"] (by decide)).2⟩

/-- C10: a POST without a parseable JSON object body (missing body,
non-JSON content, or a non-object JSON value) raises inside the handler
and lands in the generic exception branch: the response is the 500
unexpected-error one — not the 400 validation response — and no effect
is performed. -/
theorem C10_unparseable_body_500 (env : Env) :
    fetch_rnaseq_data .noBody env = (respUnexpected, [])
    ∧ fetch_rnaseq_data .nonJson env = (respUnexpected, [])
    ∧ fetch_rnaseq_data .jsonNonObject env = (respUnexpected, [])
    ∧ respUnexpected ≠ resp400
    ∧ respUnexpected.status = 500 :=
  ⟨rfl, rfl, rfl, by decide, rfl⟩

/-- C4: when every detail fetch for the identifiers in `pre` succeeds
and the fetch for `bad` (the next identifier) fails, the trace is
exactly the search request, one detail request per element of `pre`, and
the failed request — so no detail request is issued for the identifiers
after `bad`, no directory or FTP effect occurs for any record — and the
response is the 500 upstream-failure one. -/
theorem C4_detail_failure_aborts (org tis dt : Option String) (env : Env)
    (pre post : List String) (bad : String)
    (hor : sanitize_input (org.getD "") ≠ "")
    (hs : env.search = .ok (pre ++ bad :: post))
    (hpre : ∀ sid ∈ pre, (env.fetchDetail sid).isSome = true)
    (hbad : env.fetchDetail bad = none) :
    fetch_rnaseq_data (.jsonObject org tis dt) env =
      (respNCBIFail,
        Effect.searchRequest (sanitize_input (org.getD "") ++ " "
            ++ sanitize_input (tis.getD "hippocampus") ++ " "
            ++ sanitize_input (dt.getD "rna-seq")) env.apiKey
          :: ((pre.map fun sid => Effect.detailRequest sid env.apiKey)
            ++ [Effect.detailRequest bad env.apiKey])) := by
  have hfd := fetchDetailsLoop_fail env pre post bad hpre hbad
  simp [fetch_rnaseq_data, hor, hs, hfd]

theorem C4_witness :
    (∀ sid ∈ ["a"], (env4.fetchDetail sid).isSome = true)
    ∧ env4.fetchDetail "b" = none
    ∧ fetch_rnaseq_data (.jsonObject (some "mouse") none none) env4 =
      (respNCBIFail,
        [Effect.searchRequest "mouse hippocampus rnaseq" "KEY",
          Effect.detailRequest "a" "KEY", Effect.detailRequest "b" "KEY"]) := by
  refine ⟨by decide, by decide, ?_⟩
  exact (C4_detail_failure_aborts (some "mouse") none none env4 ["a"] ["c"] "b"
    (by decide) (by decide) (by decide) (by decide)).trans (by decide)

/-- C6: when the base directory exists and the operator's (case-folded)
answer is `n`, the handler returns 200 with the cancellation message,
the trace is exactly the search request, the detail requests and the
prompt — and no effect in it deletes or creates a directory, writes a
file, or touches FTP: no download happens. -/
theorem C6_cancel_no_mutation (org tis dt : Option String) (env : Env) (ids : List String)
    (hor : sanitize_input (org.getD "") ≠ "")
    (hs : env.search = .ok ids) (hne : ids ≠ [])
    (hok : ∀ sid ∈ ids, (env.fetchDetail sid).isSome = true)
    (hex : env.baseDirExists = true)
    (hn : pyLower env.userInput = "n") :
    fetch_rnaseq_data (.jsonObject org tis dt) env =
      (respCancel,
        Effect.searchRequest (sanitize_input (org.getD "") ++ " "
            ++ sanitize_input (tis.getD "hippocampus") ++ " "
            ++ sanitize_input (dt.getD "rna-seq")) env.apiKey
          :: ((ids.map fun sid => Effect.detailRequest sid env.apiKey)
            ++ [Effect.prompt]))
    ∧ ∀ e ∈ (fetch_rnaseq_data (.jsonObject org tis dt) env).2,
        mutatesFs e = false ∧ isFtpOp e = false := by
  obtain ⟨ds, hfd⟩ := fetchDetailsLoop_ok env ids hok
  have hres : resolveDir env = ([Effect.prompt], DirResult.cancelled) := by
    simp [resolveDir, hex, hn]
  have hne' : ids.isEmpty = false := by
    cases ids with
    | nil => exact absurd rfl hne
    | cons a l => rfl
  have hmain : fetch_rnaseq_data (.jsonObject org tis dt) env =
      (respCancel,
        Effect.searchRequest (sanitize_input (org.getD "") ++ " "
            ++ sanitize_input (tis.getD "hippocampus") ++ " "
            ++ sanitize_input (dt.getD "rna-seq")) env.apiKey
          :: ((ids.map fun sid => Effect.detailRequest sid env.apiKey)
            ++ [Effect.prompt])) := by
    simp [fetch_rnaseq_data, hor, hs, hne', hfd, hres]
  refine ⟨hmain, ?_⟩
  intro e he
  rw [hmain] at he
  simp only [List.mem_cons, List.mem_append, List.mem_map,
    List.mem_singleton] at he
  rcases he with rfl | he
  · exact ⟨rfl, rfl⟩
  rcases he with ⟨sid, _, rfl⟩ | he
  · exact ⟨rfl, rfl⟩
  rcases he with rfl | he
  · exact ⟨rfl, rfl⟩
  · exact absurd he (List.not_mem_nil e)

theorem C6_witness :
    env6.baseDirExists = true
    ∧ pyLower env6.userInput = "n"
    ∧ fetch_rnaseq_data (.jsonObject (some "mouse") none none) env6 =
      (respCancel,
        [Effect.searchRequest "mouse hippocampus rnaseq" "KEY",
          Effect.detailRequest "x" "KEY", Effect.prompt]) := by
  refine ⟨rfl, by decide, ?_⟩
  exact ((C6_cancel_no_mutation (some "mouse") none none env6 ["x"]
    (by decide) rfl (by decide) (by decide) rfl (by decide)).1).trans (by decide)

theorem detailIds_map (k : String) (ids : List String) :
    detailIds (ids.map fun sid => Effect.detailRequest sid k) = ids := by
  induction ids with
  | nil => rfl
  | cons sid rest ih => simp [detailIds, List.filterMap_cons] at ih ⊢; exact ih

theorem fetch_trace_ok (org tis dt : Option String) (env : Env)
    (ids ds : List String)
    (hor : sanitize_input (org.getD "") ≠ "")
    (hs : env.search = .ok ids) (hne : ids.isEmpty = false)
    (hfd : fetchDetailsLoop env ids =
      (ids.map fun sid => Effect.detailRequest sid env.apiKey, some ds)) :
    ∃ tail, (fetch_rnaseq_data (.jsonObject org tis dt) env).2 =
      Effect.searchRequest (sanitize_input (org.getD "") ++ " "
          ++ sanitize_input (tis.getD "hippocampus") ++ " "
          ++ sanitize_input (dt.getD "rna-seq")) env.apiKey
        :: ((ids.map fun sid => Effect.detailRequest sid env.apiKey)
          ++ (resolveDir env).1 ++ tail)
      ∧ detailIds tail = [] := by
  rcases hr : resolveDir env with ⟨de, dr⟩
  cases dr with
  | cancelled =>
    refine ⟨[], ?_, rfl⟩
    simp [fetch_rnaseq_data, hor, hs, hne, hfd, hr]
  | proceed bdir =>
    rcases hdl : downloadLoop env bdir 1 ds with ⟨dle, ok⟩
    refine ⟨dle, ?_, ?_⟩
    · cases ok <;> simp [fetch_rnaseq_data, hor, hs, hne, hfd, hr, hdl]
    · have h := detailIds_downloadLoop env bdir 1 ds
      rw [hdl] at h
      exact h

/-- C7 counterexample: with organism `mouse` and tissue and data_type
omitted, the term sent to the search endpoint is
`mouse hippocampus rnaseq` — the sanitizer strips the hyphen from the
default `rna-seq` — not `mouse hippocampus rna-seq` as claimed; no
effect in the trace carries the claimed term. -/
theorem C7_counterexample :
    (fetch_rnaseq_data (.jsonObject (some "mouse") none none) env7).2 =
      [Effect.searchRequest "mouse hippocampus rnaseq" "KEY",
        Effect.detailRequest "100001" "KEY",
        Effect.detailRequest "100002" "KEY",
        Effect.makedirs base_dir]
    ∧ ("mouse hippocampus rnaseq" : String) ≠ "mouse hippocampus rna-seq"
    ∧ Effect.searchRequest "mouse hippocampus rna-seq" "KEY" ∉
        (fetch_rnaseq_data (.jsonObject (some "mouse") none none) env7).2 := by
  refine ⟨by decide, by decide, by decide⟩

/-- C7 amended: with organism `mouse` and tissue and data_type omitted,
the search term is `mouse hippocampus rnaseq` (sanitization removes the
hyphen of the default `rna-seq`); and when the search yields
`100001, 100002` and both detail fetches succeed, exactly two detail
requests are issued, with those identifiers, in that order. -/
theorem C7_amended_query_and_two_fetches (env : Env)
    (hs : env.search = .ok ["100001", "100002"])
    (h1 : (env.fetchDetail "100001").isSome = true)
    (h2 : (env.fetchDetail "100002").isSome = true) :
    (fetch_rnaseq_data (.jsonObject (some "mouse") none none) env).2.head? =
      some (Effect.searchRequest "mouse hippocampus rnaseq" env.apiKey)
    ∧ detailIds (fetch_rnaseq_data (.jsonObject (some "mouse") none none) env).2 =
      ["100001", "100002"] := by
  obtain ⟨ds, hfd⟩ := fetchDetailsLoop_ok env ["100001", "100002"] (by
    intro sid hsid
    rcases List.mem_cons.mp hsid with rfl | hsid'
    · exact h1
    rcases List.mem_cons.mp hsid' with rfl | hsid''
    · exact h2
    · exact absurd hsid'' (List.not_mem_nil sid))
  obtain ⟨tail, htr, htail⟩ := fetch_trace_ok (some "mouse") none none env
    ["100001", "100002"] ds (by decide) hs rfl hfd
  have hq : sanitize_input ((some "mouse").getD "") ++ " "
      ++ sanitize_input ((none : Option String).getD "hippocampus") ++ " "
      ++ sanitize_input ((none : Option String).getD "rna-seq")
      = "mouse hippocampus rnaseq" := by decide
  rw [htr, hq]
  refine ⟨rfl, ?_⟩
  have hrest : detailIds ((["100001", "100002"].map
        fun sid => Effect.detailRequest sid env.apiKey)
      ++ (resolveDir env).1 ++ tail) = ["100001", "100002"] := by
    rw [detailIds_append, detailIds_append, detailIds_map,
      detailIds_resolveDir, htail]
    simp
  calc detailIds (Effect.searchRequest "mouse hippocampus rnaseq" env.apiKey
        :: ((["100001", "100002"].map fun sid => Effect.detailRequest sid env.apiKey)
          ++ (resolveDir env).1 ++ tail))
      = detailIds ((["100001", "100002"].map
            fun sid => Effect.detailRequest sid env.apiKey)
          ++ (resolveDir env).1 ++ tail) := by
        simp [detailIds, List.filterMap_cons]
    _ = ["100001", "100002"] := hrest

theorem C7_amended_witness :
    env7.search = .ok ["100001", "100002"]
    ∧ (env7.fetchDetail "100001").isSome = true
    ∧ (env7.fetchDetail "100002").isSome = true
    ∧ (fetch_rnaseq_data (.jsonObject (some "mouse") none none) env7).2.head? =
      some (Effect.searchRequest "mouse hippocampus rnaseq" env7.apiKey)
    ∧ detailIds (fetch_rnaseq_data (.jsonObject (some "mouse") none none) env7).2 =
      ["100001", "100002"] := by
  have h := C7_amended_query_and_two_fetches env7 rfl (by decide) (by decide)
  exact ⟨rfl, by decide, by decide, h.1, h.2⟩

/-- C8 counterexample: under two environments whose configuration
(the API key) differs, the directory-resolution step creates the very
same hard-coded directory, the constant `/home/caheri_salas/db_scRNAseq`
of line 80 — the base directory is not determined by configuration. -/
theorem C8_counterexample :
    envC1.apiKey ≠ envC2.apiKey
    ∧ resolveDir envC1 = ([Effect.makedirs "/home/caheri_salas/db_scRNAseq"],
        DirResult.proceed "/home/caheri_salas/db_scRNAseq")
    ∧ resolveDir envC2 = ([Effect.makedirs "/home/caheri_salas/db_scRNAseq"],
        DirResult.proceed "/home/caheri_salas/db_scRNAseq")
    ∧ base_dir = "/home/caheri_salas/db_scRNAseq" :=
  ⟨by decide, by decide, by decide, rfl⟩

/-- C8 amended: the base directory is the fixed program constant
`/home/caheri_salas/db_scRNAseq`; whenever it does not already exist the
handler creates and uses exactly that constant, for every environment —
only the interactive prompt (when the directory exists) can substitute a
different path. -/
theorem C8_amended_fixed_base_dir (env : Env) (h : env.baseDirExists = false) :
    resolveDir env = ([Effect.makedirs base_dir], DirResult.proceed base_dir)
    ∧ base_dir = "/home/caheri_salas/db_scRNAseq" := by
  constructor
  · simp [resolveDir, h]
  · rfl

theorem C8_amended_witness :
    envW.baseDirExists = false
    ∧ (resolveDir envW = ([Effect.makedirs base_dir], DirResult.proceed base_dir)
      ∧ base_dir = "/home/caheri_salas/db_scRNAseq") :=
  ⟨rfl, C8_amended_fixed_base_dir envW rfl⟩

/-- C9 counterexample: for the URL `ftp://example.com/data` the code's
`cwd` target is the unchanged URL (the `replace` only removes the
literal NCBI host), while stripping the host prefix as the spec states
would give `data`. -/
theorem C9_counterexample :
    cwdTarget "ftp://example.com/data" = "ftp://example.com/data"
    ∧ hostStripped "ftp://example.com/data" = "data"
    ∧ cwdTarget "ftp://example.com/data" ≠ hostStripped "ftp://example.com/data" :=
  ⟨by decide, by decide, by decide⟩

/-- C9 amended: the `cwd` target is the URL with every occurrence of the
literal `ftp://ftp.ncbi.nlm.nih.gov/` removed: a URL beginning with that
literal (and not containing it again) loses exactly its host part, while
a URL not containing the literal at all — any other host — is passed to
`cwd` unchanged. -/
theorem C9_amended_replace_ncbi_only (r u : String)
    (h1 : occursIn ncbiHostLit.data r.data = false)
    (h2 : occursIn ncbiHostLit.data u.data = false) :
    cwdTarget (ncbiHostLit ++ r) = r ∧ cwdTarget u = u := by
  constructor
  · show String.mk (removeAll ncbiHostLit.data (ncbiHostLit ++ r).data) = r
    rw [String.data_append, removeAll_append_self _ _ (by decide),
      removeAll_of_not_occursIn _ _ h1]
  · show String.mk (removeAll ncbiHostLit.data u.data) = u
    rw [removeAll_of_not_occursIn _ _ h2]

theorem C9_amended_witness :
    occursIn ncbiHostLit.data ("geo/series/GSE100" : String).data = false
    ∧ occursIn ncbiHostLit.data ("ftp://example.com/data" : String).data = false
    ∧ cwdTarget (ncbiHostLit ++ "geo/series/GSE100") = "geo/series/GSE100"
    ∧ cwdTarget "ftp://example.com/data" = "ftp://example.com/data" := by
  have h := C9_amended_replace_ncbi_only "geo/series/GSE100" "ftp://example.com/data"
    (by decide) (by decide)
  exact ⟨by decide, by decide, h.1, h.2⟩

end ScRNAseq
